import Mathlib

/-!
Verification of the InstaLooter page-iterator core (`instalooter/pages.py`).

The development shallowly embeds the module's behaviour:

* decoded JSON response bodies become the inductive type `Json`, and Python's
  subscript / truthiness semantics become `Json.getItem`, `Json.getIdx`,
  `Json.truthy`;
* the signature computation (`hashlib.md5`) is implemented bit-exactly over
  byte lists (`md5hex`), together with UTF-8 encoding of strings;
* the `PageIterator` object state becomes the record `IterState`, and the
  methods `_page_loader` / `__next__` / `__length_hint__` become the step
  functions `pageLoaderAttempt` / `pageLoaderNext` / `nextStep` / `lengthHint`
  over that record, with the HTTP transport abstracted as a response tape
  `Env : Nat → Json` (one entry per issued request) and a ghost log recording
  the cursor, serialized parameters and signature header of every request;
* `ProfileIterator.from_username` / `_user_data` become `from_username`.
-/

/-- Python exception kinds that the embedded code can raise. -/
inductive PyErr where
  | keyError
  | typeError
  | indexError
  | stopIter
  | valueError (msg : String)
  | runtimeError (msg : String)
  | attributeError
  deriving DecidableEq

/-- Decoded JSON values (the result of `res.json()` / `json.loads`). -/
inductive Json where
  | null
  | bool (b : Bool)
  | num (n : Int)
  | str (s : String)
  | arr (elems : List Json)
  | obj (fields : List (String × Json))

/-- Python subscript `j[k]` with a string key: dictionary lookup raising
`KeyError` on a missing key, `TypeError` on a non-dictionary. -/
def Json.getItem : Json → String → Except PyErr Json
  | .obj fields, k =>
    match fields.lookup k with
    | some v => .ok v
    | none => .error .keyError
  | _, _ => .error .typeError

/-- Python subscript `j[i]` with an integer index (used for `ProfilePage[0]`). -/
def Json.getIdx : Json → Nat → Except PyErr Json
  | .arr elems, i =>
    match elems.get? i with
    | some v => .ok v
    | none => .error .indexError
  | .str s, i =>
    match s.toList.get? i with
    | some c => .ok (.str (String.mk [c]))
    | none => .error .indexError
  | .obj _, _ => .error .keyError
  | _, _ => .error .typeError

/-- A chain of Python string subscripts, failing at the first error
(Python evaluates chained subscripts left to right). -/
def Json.getPath (j : Json) (ks : List String) : Except PyErr Json :=
  ks.foldlM Json.getItem j

/-- Python truthiness of a decoded JSON value. -/
def Json.truthy : Json → Bool
  | .null => false
  | .bool b => b
  | .num n => n != 0
  | .str s => s != ""
  | .arr elems => !elems.isEmpty
  | .obj fields => !fields.isEmpty

/-- Python's `connected_id != data['id']` where `connected_id` is an optional
cookie string and `data['id']` a JSON value: values of different types are
unequal, `None` equals only JSON `null`. -/
def pyNeq : Option String → Json → Bool
  | none, .null => false
  | none, _ => true
  | some s, .str t => !(s == t)
  | some _, _ => true

/-- `int(math.ceil(n / d))` for an integer `n` and positive integer `d`. -/
def ceilIntDiv (n : Int) (d : Int) : Int :=
  Int.fdiv (n + d - 1) d

/-- UTF-8 encoding of one character (`str.encode('utf-8')`). -/
def utf8EncodeChar (c : Char) : List Nat :=
  let n := c.toNat
  if n < 0x80 then [n]
  else if n < 0x800 then
    [0xC0 ||| (n >>> 6), 0x80 ||| (n &&& 0x3F)]
  else if n < 0x10000 then
    [0xE0 ||| (n >>> 12), 0x80 ||| ((n >>> 6) &&& 0x3F), 0x80 ||| (n &&& 0x3F)]
  else
    [0xF0 ||| (n >>> 18), 0x80 ||| ((n >>> 12) &&& 0x3F),
     0x80 ||| ((n >>> 6) &&& 0x3F), 0x80 ||| (n &&& 0x3F)]

/-- UTF-8 encoding of a string as a byte list. -/
def utf8Bytes (s : String) : List Nat :=
  s.toList.flatMap utf8EncodeChar

/-! ### MD5 (`hashlib.md5`), bit-exact over byte lists -/

/-- 32-bit mask. -/
def mask32 : Nat := 0xFFFFFFFF

/-- 32-bit left rotation. -/
def rotl32 (x : Nat) (s : Nat) : Nat :=
  ((x <<< s) ||| (x >>> (32 - s))) &&& mask32

/-- The four MD5 round functions F, G, H, I selected by index. -/
def md5F : Nat → Nat → Nat → Nat → Nat
  | 0, b, c, d => (b &&& c) ||| ((b ^^^ mask32) &&& d)
  | 1, b, c, d => (d &&& b) ||| ((d ^^^ mask32) &&& c)
  | 2, b, c, d => b ^^^ c ^^^ d
  | _, b, c, d => c ^^^ (b ||| (d ^^^ mask32))

/-- Per-round table `(roundFn, messageIndex, addConstant, shift)` of MD5:
the 64 entries of RFC 1321. -/
def md5Table : List (Nat × Nat × Nat × Nat) :=
  [(0, 0, 3614090360, 7), (0, 1, 3905402710, 12), (0, 2, 606105819, 17), (0, 3, 3250441966, 22),
   (0, 4, 4118548399, 7), (0, 5, 1200080426, 12), (0, 6, 2821735955, 17), (0, 7, 4249261313, 22),
   (0, 8, 1770035416, 7), (0, 9, 2336552879, 12), (0, 10, 4294925233, 17), (0, 11, 2304563134, 22),
   (0, 12, 1804603682, 7), (0, 13, 4254626195, 12), (0, 14, 2792965006, 17), (0, 15, 1236535329, 22),
   (1, 1, 4129170786, 5), (1, 6, 3225465664, 9), (1, 11, 643717713, 14), (1, 0, 3921069994, 20),
   (1, 5, 3593408605, 5), (1, 10, 38016083, 9), (1, 15, 3634488961, 14), (1, 4, 3889429448, 20),
   (1, 9, 568446438, 5), (1, 14, 3275163606, 9), (1, 3, 4107603335, 14), (1, 8, 1163531501, 20),
   (1, 13, 2850285829, 5), (1, 2, 4243563512, 9), (1, 7, 1735328473, 14), (1, 12, 2368359562, 20),
   (2, 5, 4294588738, 4), (2, 8, 2272392833, 11), (2, 11, 1839030562, 16), (2, 14, 4259657740, 23),
   (2, 1, 2763975236, 4), (2, 4, 1272893353, 11), (2, 7, 4139469664, 16), (2, 10, 3200236656, 23),
   (2, 13, 681279174, 4), (2, 0, 3936430074, 11), (2, 3, 3572445317, 16), (2, 6, 76029189, 23),
   (2, 9, 3654602809, 4), (2, 12, 3873151461, 11), (2, 15, 530742520, 16), (2, 2, 3299628645, 23),
   (3, 0, 4096336452, 6), (3, 7, 1126891415, 10), (3, 14, 2878612391, 15), (3, 5, 4237533241, 21),
   (3, 12, 1700485571, 6), (3, 3, 2399980690, 10), (3, 10, 4293915773, 15), (3, 1, 2240044497, 21),
   (3, 8, 1873313359, 6), (3, 15, 4264355552, 10), (3, 6, 2734768916, 15), (3, 13, 1309151649, 21),
   (3, 4, 4149444226, 6), (3, 11, 3174756917, 10), (3, 2, 718787259, 15), (3, 9, 3951481745, 21)]

/-- Group a byte list into little-endian 32-bit words. -/
def toWordsLE : List Nat → List Nat
  | b0 :: b1 :: b2 :: b3 :: rest =>
    (b0 + 256 * b1 + 65536 * b2 + 16777216 * b3) :: toWordsLE rest
  | _ => []

/-- One MD5 round step on the running state `(a, b, c, d)`. -/
def md5Round (M : List Nat) (st : Nat × Nat × Nat × Nat)
    (e : Nat × Nat × Nat × Nat) : Nat × Nat × Nat × Nat :=
  let (a, b, c, d) := st
  let (f, g, k, s) := e
  let tmp := (a + md5F f b c d + k + M.getD g 0) &&& mask32
  (d, (b + rotl32 tmp s) &&& mask32, b, c)

/-- Process one 64-byte block, updating the MD5 state. -/
def md5Block (st : Nat × Nat × Nat × Nat) (block : List Nat) :
    Nat × Nat × Nat × Nat :=
  let M := toWordsLE block
  let (a, b, c, d) := st
  let (a', b', c', d') := md5Table.foldl (md5Round M) (a, b, c, d)
  ((a + a') &&& mask32, (b + b') &&& mask32, (c + c') &&& mask32, (d + d') &&& mask32)

/-- Process `n` consecutive 64-byte blocks. -/
def md5Blocks : Nat → (Nat × Nat × Nat × Nat) → List Nat → Nat × Nat × Nat × Nat
  | 0, st, _ => st
  | n + 1, st, bytes => md5Blocks n (md5Block st (bytes.take 64)) (bytes.drop 64)

/-- MD5 padding: append `0x80`, zeros to 56 mod 64, then the 64-bit
little-endian bit length. -/
def md5Pad (msg : List Nat) : List Nat :=
  let bitLen := (8 * msg.length) % (2 ^ 64)
  let zeros := (64 + 56 - ((msg.length + 1) % 64)) % 64
  msg ++ [0x80] ++ List.replicate zeros 0 ++
    ((List.range 8).map fun i => (bitLen >>> (8 * i)) &&& 255)

/-- Little-endian byte decomposition of a 32-bit word. -/
def wordBytesLE (w : Nat) : List Nat :=
  [w &&& 255, (w >>> 8) &&& 255, (w >>> 16) &&& 255, (w >>> 24) &&& 255]

/-- The 16-byte MD5 digest of a byte list. -/
def md5 (msg : List Nat) : List Nat :=
  let padded := md5Pad msg
  let (a, b, c, d) :=
    md5Blocks (padded.length / 64)
      (0x67452301, 0xefcdab89, 0x98badcfe, 0x10325476) padded
  wordBytesLE a ++ wordBytesLE b ++ wordBytesLE c ++ wordBytesLE d

/-- One lowercase hexadecimal digit. -/
def hexDigit (n : Nat) : Char :=
  "0123456789abcdef".toList.getD n '0'

/-- Two lowercase hex digits of a byte. -/
def byteHex (b : Nat) : String :=
  String.mk [hexDigit (b / 16), hexDigit (b % 16)]

/-- `hashlib.md5(bytes).hexdigest()`: the lowercase hex MD5 digest. -/
def md5hex (msg : List Nat) : String :=
  String.join ((md5 msg).map byteHex)

/-! ### Compact JSON serialization of the request parameters

`pages.py` serializes the parameter dictionary with
`json.dumps(params, separators=(',', ':'))`, where `json` comes from the
repository's `_impl` module (not part of the analysed sources). -/

/-- Modelled from the spec: escaping of one character inside a JSON string by
the serializer of the repository's `_impl.json` module (deterministic,
ASCII-only output as `json.dumps` defaults to). -/
def jsonEscapeChar (c : Char) : String :=
  if c = '"' then "\\\""
  else if c = '\\' then "\\\\"
  else if c = '\n' then "\\n"
  else if c = '\r' then "\\r"
  else if c = '\t' then "\\t"
  else if c.toNat < 0x20 ∨ c.toNat > 0x7e then
    if c.toNat ≤ 0xFFFF then
      "\\u" ++ String.mk [hexDigit ((c.toNat >>> 12) &&& 15), hexDigit ((c.toNat >>> 8) &&& 15),
                          hexDigit ((c.toNat >>> 4) &&& 15), hexDigit (c.toNat &&& 15)]
    else
      let m := c.toNat - 0x10000
      let hi := 0xD800 + m / 0x400
      let lo := 0xDC00 + m % 0x400
      "\\u" ++ String.mk [hexDigit ((hi >>> 12) &&& 15), hexDigit ((hi >>> 8) &&& 15),
                          hexDigit ((hi >>> 4) &&& 15), hexDigit (hi &&& 15)] ++
      "\\u" ++ String.mk [hexDigit ((lo >>> 12) &&& 15), hexDigit ((lo >>> 8) &&& 15),
                          hexDigit ((lo >>> 4) &&& 15), hexDigit (lo &&& 15)]
  else String.mk [c]

/-- Escaped body of a JSON string literal. -/
def jsonEscape (s : String) : String :=
  String.join (s.toList.map jsonEscapeChar)

mutual

/-- Modelled from the spec: `json.dumps(v, separators=(',', ':'))` of the
repository's `_impl.json` module — deterministic compact serialization with
insertion key order and no whitespace. -/
def jsonDumps : Json → String
  | .null => "null"
  | .bool true => "true"
  | .bool false => "false"
  | .num n => toString n
  | .str s => "\"" ++ jsonEscape s ++ "\""
  | .arr elems => "[" ++ String.intercalate "," (jsonDumpsList elems) ++ "]"
  | .obj fields => "\x7b" ++ String.intercalate "," (jsonDumpsFields fields) ++ "\x7d"

/-- Serializations of the elements of a JSON array. -/
def jsonDumpsList : List Json → List String
  | [] => []
  | x :: xs => jsonDumps x :: jsonDumpsList xs

/-- Serializations of the `"key":value` pairs of a JSON object. -/
def jsonDumpsFields : List (String × Json) → List String
  | [] => []
  | kv :: xs => ("\"" ++ jsonEscape kv.1 ++ "\":" ++ jsonDumps kv.2) :: jsonDumpsFields xs

end

/-! ### The `PageIterator` state machine -/

/-- The static data of one `PageIterator` object: the section keys supplied by
the concrete subclass, the rotating token `rhx`, the transport's
`X-CSRFToken` header (`none` when the header is absent from the session), and
the subclass's `_getparams` taking the current cursor. -/
structure IterCfg where
  sectionGeneric : String
  sectionMedia : String
  rhx : String
  csrf : Option String
  getparams : Json → Json

/-- `HashtagIterator._getparams`. -/
def hashtagGetparams (hashtag : String) (cursor : Json) : Json :=
  .obj [("tag_name", .str hashtag), ("first", .num 200), ("after", cursor)]

/-- `ProfileIterator._getparams`. -/
def profileGetparams (ownerId : Json) (cursor : Json) : Json :=
  .obj [("id", ownerId), ("first", .num 200), ("after", cursor)]

/-- Ghost record of one issued HTTP request: the cursor it was built from, the
serialized `variables` parameter, and the `x-instagram-gis` header written
onto the session just before the request. -/
structure FetchRec where
  cursor : Json
  jsonParams : String
  gis : String

/-- The mutable state of a `PageIterator` (`__init__` fields), plus the ghost
request log. `genDead` records that the `_page_loader` generator has raised
and is therefore exhausted. The response tape is indexed by `log.length`, so
the log length is also the number of requests issued so far. -/
structure IterState where
  finished : Bool
  cursor : Json
  currentPage : Nat
  total : Option Int
  done : Nat
  genDead : Bool
  gisHeader : Option String
  log : List FetchRec

/-- The state set up by `PageIterator.__init__` (the generator is created but
not started, so no request is issued at construction). -/
def initState : IterState :=
  { finished := false, cursor := .null, currentPage := 0, total := none,
    done := 0, genDead := false, gisHeader := none, log := [] }

/-- The environment: the JSON body of the response to the `i`-th issued
request. -/
def Env : Type := Nat → Json

/-- `int(math.ceil(c / self.PAGE_SIZE))` for the JSON value `c`: numeric
values (Python `bool` is numeric) divide; any other type raises `TypeError`,
which both call sites catch by setting the total to `0`. -/
def countTotal : Json → Int
  | .num n => ceilIntDiv n 200
  | .bool b => ceilIntDiv (if b then 1 else 0) 200
  | _ => 0

/-- The value `_page_loader` stores into `self._total` for a fetched body:
`ceil(count / 200)` when `data[generic][media]['count']` is readable, `0`
when the inner `try` fails with `KeyError` or `TypeError`. -/
def totalFromBody (cfg : IterCfg) (body : Json) : Int :=
  match body.getPath ["data", cfg.sectionGeneric, cfg.sectionMedia, "count"] with
  | .ok c => countTotal c
  | .error _ => 0

/-- Outcome of one iteration of the `while True` body of
`PageIterator._page_loader`. -/
inductive AttemptRes where
  | yielded (st : IterState) (data : Json)
  | retry (st : IterState)
  | crash (st : IterState) (e : PyErr)

/-- One iteration of `_page_loader`'s loop body: build and sign the request,
issue it, update `self._total`, and yield `data['data']`.  A missing
`X-CSRFToken` header or a missing `'data'` key raises `KeyError`, which the
loop's `except KeyError` turns into a 10-unit sleep and a retry; a
non-dictionary body raises `TypeError` at `data['data']`, which is not
caught and kills the generator. -/
def pageLoaderAttempt (cfg : IterCfg) (env : Env) (st : IterState) : AttemptRes :=
  match cfg.csrf with
  | none => .retry st
  | some csrf =>
    let params := cfg.getparams st.cursor
    let jp := jsonDumps params
    let magic := cfg.rhx ++ ":" ++ csrf ++ ":" ++ jp
    let gis := md5hex (utf8Bytes magic)
    let body := env st.log.length
    let st' : IterState :=
      { st with gisHeader := some gis,
                log := st.log ++ [⟨st.cursor, jp, gis⟩],
                total := some (totalFromBody cfg body) }
    match body.getItem "data" with
    | .ok data => .yielded st' data
    | .error .keyError => .retry st'
    | .error e => .crash { st' with genDead := true } e

/-- Outcome of `next(self._data_it)`. -/
inductive LoaderRes where
  | ok (st : IterState) (data : Json) (slept : Nat)
  | stopIter (st : IterState)
  | crash (st : IterState) (e : PyErr)
  | fuelOut (st : IterState) (slept : Nat)

/-- `next(self._data_it)`: run loop iterations until one yields, crashes, or
the retry fuel runs out; `slept` accumulates the `time.sleep(10)` calls.  A
generator that previously raised is exhausted and raises `StopIteration`. -/
def pageLoaderNext (cfg : IterCfg) (env : Env) :
    Nat → IterState → Nat → LoaderRes
  | 0, st, slept =>
    if st.genDead then .stopIter st else .fuelOut st slept
  | fuel + 1, st, slept =>
    if st.genDead then .stopIter st
    else
      match pageLoaderAttempt cfg env st with
      | .yielded st' data => .ok st' data slept
      | .retry st' => pageLoaderNext cfg env fuel st' (slept + 10)
      | .crash st' e => .crash st' e

/-- Outcome of `PageIterator.__next__` as seen by the caller. -/
inductive NextRes where
  | yielded (st : IterState) (v : Json)
  | stop (st : IterState)
  | crash (st : IterState) (e : PyErr)
  | fuelOut (st : IterState)

/-- The body of `PageIterator.__next__` after `data = next(self._data_it)`
succeeded: extract the media section, apply the termination rules, advance
the cursor, and return `data[self.section_generic]`. -/
def processData (cfg : IterCfg) (st' : IterState) (data : Json) : NextRes :=
  match data.getItem cfg.sectionGeneric with
  | .error _ => .stop { st' with finished := true }
  | .ok gsec =>
    match gsec.getItem cfg.sectionMedia with
    | .error _ => .stop { st' with finished := true }
    | .ok mediaInfo =>
      match mediaInfo.getPath ["page_info", "has_next_page"] with
      | .error e => .crash st' e
      | .ok hn =>
        if !hn.truthy then .yielded { st' with finished := true } gsec
        else
          match mediaInfo.getItem "edges" with
          | .error e => .crash st' e
          | .ok edges =>
            if !edges.truthy then .stop { st' with finished := true }
            else
              match mediaInfo.getPath ["page_info", "end_cursor"] with
              | .error e => .crash st' e
              | .ok ec =>
                .yielded { st' with cursor := ec,
                                    currentPage := st'.currentPage + 1 } gsec

/-- `PageIterator.__next__`. -/
def nextStep (cfg : IterCfg) (env : Env) (fuel : Nat) (st : IterState) : NextRes :=
  if st.finished then .stop st
  else
    match pageLoaderNext cfg env fuel st 0 with
    | .stopIter st' => .stop st'
    | .crash st' e => .crash st' e
    | .fuelOut st' _ => .fuelOut st'
    | .ok st' data _ => processData cfg st' data

/-- Outcome of `PageIterator.__length_hint__`. -/
inductive HintRes where
  | ok (st : IterState) (v : Int)
  | crash (st : IterState) (e : PyErr)
  | fuelOut (st : IterState)

/-- The count read of `__length_hint__` on the generator's yielded item:
`KeyError` escapes, `TypeError` is caught by setting the total to `0`. -/
def hintOfData (cfg : IterCfg) (st' : IterState) (data : Json) : HintRes :=
  match data.getPath [cfg.sectionGeneric, cfg.sectionMedia, "count"] with
  | .ok c =>
    .ok { st' with total := some (countTotal c) } (countTotal c - st'.done)
  | .error .typeError =>
    .ok { st' with total := some 0 } (0 - st'.done)
  | .error e => .crash st' e

/-- `__length_hint__`'s handling of an exception raised by
`next(self._data_it)`: only `TypeError` is in the caught tuple. -/
def hintOfCrash (st' : IterState) (e : PyErr) : HintRes :=
  match e with
  | .typeError => .ok { st' with total := some 0 } (0 - st'.done)
  | _ => .crash st' e

/-- `PageIterator.__length_hint__`: when `self._total` is unknown, pull one
item from the shared generator and read its count; `StopIteration` and
`TypeError` set the total to `0`, while a `KeyError` from the count path
escapes to the caller.  Returns `self._total - self._done`. -/
def lengthHint (cfg : IterCfg) (env : Env) (fuel : Nat) (st : IterState) : HintRes :=
  match st.total with
  | some t => .ok st (t - st.done)
  | none =>
    match pageLoaderNext cfg env fuel st 0 with
    | .stopIter st' =>
      .ok { st' with total := some 0 } (0 - st'.done)
    | .crash st' e => hintOfCrash st' e
    | .fuelOut st' _ => .fuelOut st'
    | .ok st' data _ => hintOfData cfg st' data

/-- The state component of a `__next__` outcome. -/
def NextRes.state : NextRes → IterState
  | .yielded st _ => st
  | .stop st => st
  | .crash st _ => st
  | .fuelOut st => st

/-- The yielded value of a `__next__` outcome, if any. -/
def NextRes.value? : NextRes → Option Json
  | .yielded _ v => some v
  | _ => none

/-- Whether `__next__` raised `StopIteration` to the caller. -/
def NextRes.isStop : NextRes → Bool
  | .stop _ => true
  | _ => false

/-- The state component of a `__length_hint__` outcome. -/
def HintRes.state : HintRes → IterState
  | .ok st _ => st
  | .crash st _ => st
  | .fuelOut st => st

/-- The value returned by `__length_hint__`, if it returned. -/
def HintRes.value? : HintRes → Option Int
  | .ok _ v => some v
  | _ => none

/-! ### Well-formed pages and the response bodies they decode to -/

/-- The content of one well-formed remote page. -/
structure Page where
  count : Json
  hasNext : Bool
  endCursor : Json
  edges : List Json

/-- The `mediaSection` object of a page. -/
def mediaObj (p : Page) : Json :=
  .obj [("count", p.count),
        ("page_info", .obj [("has_next_page", .bool p.hasNext),
                            ("end_cursor", p.endCursor)]),
        ("edges", .arr p.edges)]

/-- The generic-section object of a page: what `__next__` returns to the
caller. -/
def pageSection (cfg : IterCfg) (p : Page) : Json :=
  .obj [(cfg.sectionMedia, mediaObj p)]

/-- The full response envelope for a page, as decoded by `res.json()`. -/
def mkBody (cfg : IterCfg) (p : Page) : Json :=
  .obj [("data", .obj [(cfg.sectionGeneric, pageSection cfg p)])]

/-- Result of a sequence of `__next__` calls. -/
inductive RunRes where
  | done (vs : List Json) (st : IterState)
  | stopped (vs : List Json) (st : IterState)
  | failed (vs : List Json)

/-- Perform `n` successive `__next__` calls, collecting the yielded values;
stop early on `StopIteration`, a crash, or fuel exhaustion. -/
def runNexts (cfg : IterCfg) (env : Env) (fuel : Nat) :
    Nat → IterState → RunRes
  | 0, st => .done [] st
  | n + 1, st =>
    match nextStep cfg env fuel st with
    | .yielded st' v =>
      match runNexts cfg env fuel n st' with
      | .done vs stF => .done (v :: vs) stF
      | .stopped vs stF => .stopped (v :: vs) stF
      | .failed vs => .failed (v :: vs)
    | .stop st' => .stopped [] st'
    | _ => .failed []

/-- The collected yields of a run. -/
def RunRes.values : RunRes → List Json
  | .done vs _ => vs
  | .stopped vs _ => vs
  | .failed vs => vs

/-- The final state of a run that did not fail. -/
def RunRes.state? : RunRes → Option IterState
  | .done _ st => some st
  | .stopped _ st => some st
  | .failed _ => none

/-! ### `ProfileIterator.from_username` -/

/-- Outcome of `_utils.get_shared_data` on the fetched profile HTML. -/
inductive GsdResult where
  | ok (payload : Json)
  | absent
  | malformed

/-- Modelled from the spec: `get_shared_data` (repository module `_utils`,
not part of the analysed sources) extracts the framework-injected
initial-state blob from the profile page HTML; an absent blob raises
`AttributeError` (no regex match), an unparseable blob raises `ValueError`
(JSON decode failure). -/
def getSharedDataExc : GsdResult → Except PyErr Json
  | .ok payload => .ok payload
  | .absent => .error .attributeError
  | .malformed => .error (.valueError "json decode")

/-- `ProfileIterator._user_data`: fetch the profile page and extract the
shared-data payload, converting `ValueError` and `AttributeError` into
`ValueError("account not found: <username>")`. -/
def userData (username : String) (g : GsdResult) : Except PyErr Json :=
  match getSharedDataExc g with
  | .ok payload => .ok payload
  | .error (.valueError _) => .error (.valueError ("account not found: " ++ username))
  | .error .attributeError => .error (.valueError ("account not found: " ++ username))
  | .error e => .error e

/-- The first `ds_user_id` cookie value in the session's cookie jar
(`next((ck.value for ck in session.cookies if ck.name=="ds_user_id"), None)`). -/
def dsUserId (cookies : List (String × String)) : Option String :=
  (cookies.find? fun ck => ck.1 == "ds_user_id").map Prod.snd

/-- `ProfileIterator.from_username`: resolve the handle, navigate to the
`user` object, enforce the privacy check (Python `and` short-circuits, so
`followed_by_viewer` is only read when `is_private` is truthy), and return
the pair `(data['id'], user_data['rhx_gis'])` passed to the constructor. -/
def from_username (username : String) (g : GsdResult)
    (cookies : List (String × String)) : Except PyErr (Json × Json) := do
  let ud ← userData username g
  let entry ← ud.getItem "entry_data"
  let pp ← entry.getItem "ProfilePage"
  let p0 ← pp.getIdx 0
  let gql ← p0.getItem "graphql"
  let data ← gql.getItem "user"
  let priv ← data.getItem "is_private"
  if priv.truthy then
    let followed ← data.getItem "followed_by_viewer"
    if !followed.truthy then
      let idv ← data.getItem "id"
      if pyNeq (dsUserId cookies) idv then
        throw (.runtimeError ("user '" ++ username ++ "' is private"))
  let idv ← data.getItem "id"
  let rhxGis ← ud.getItem "rhx_gis"
  return (idv, rhxGis)

/-! ### Concrete instances used by witnesses and counterexamples -/

/-- A concrete `ProfileIterator` configuration (owner id `"42"`, rotating
token `"abc"`, transport CSRF token `"tok"`). -/
def cfgW : IterCfg :=
  { sectionGeneric := "user", sectionMedia := "edge_owner_to_timeline_media",
    rhx := "abc", csrf := some "tok", getparams := profileGetparams (.str "42") }

/-- A nonterminal page: 400 items reported, more pages follow. -/
def pageA : Page :=
  { count := .num 400, hasNext := true, endCursor := .str "c1", edges := [.str "e1"] }

/-- A terminal page (`has_next_page = false`). -/
def pageB : Page :=
  { count := .num 400, hasNext := false, endCursor := .null, edges := [.str "e2"] }

/-! ### Step lemmas -/

/-- The yielded `data['data']` object of a well-formed page body. -/
def pageData (cfg : IterCfg) (p : Page) : Json :=
  .obj [(cfg.sectionGeneric, pageSection cfg p)]

/-- The ghost record of the request built from `cursor` and signed with the
session's CSRF token. -/
def fetchRecOf (cfg : IterCfg) (csrf : String) (cursor : Json) : FetchRec :=
  ⟨cursor, jsonDumps (cfg.getparams cursor),
   md5hex (utf8Bytes (cfg.rhx ++ ":" ++ csrf ++ ":" ++ jsonDumps (cfg.getparams cursor)))⟩

/-- The object state after one signed fetch whose inner `try` stored `t` into
`self._total`. -/
def stAfterFetch (cfg : IterCfg) (csrf : String) (st : IterState) (t : Int) : IterState :=
  { st with gisHeader := some (fetchRecOf cfg csrf st.cursor).gis,
            log := st.log ++ [fetchRecOf cfg csrf st.cursor],
            total := some t }

lemma getItem_mkBody_data (cfg : IterCfg) (p : Page) :
    (mkBody cfg p).getItem "data" = .ok (pageData cfg p) := by
  simp [mkBody, pageData, Json.getItem, List.lookup]

lemma getItem_pageData (cfg : IterCfg) (p : Page) :
    (pageData cfg p).getItem cfg.sectionGeneric = .ok (pageSection cfg p) := by
  simp [pageData, Json.getItem, List.lookup]

lemma getItem_pageSection (cfg : IterCfg) (p : Page) :
    (pageSection cfg p).getItem cfg.sectionMedia = .ok (mediaObj p) := by
  simp [pageSection, Json.getItem, List.lookup]

lemma mediaObj_count (p : Page) : (mediaObj p).getItem "count" = .ok p.count := by
  simp [mediaObj, Json.getItem, List.lookup]

lemma mediaObj_hasNext (p : Page) :
    (mediaObj p).getPath ["page_info", "has_next_page"] = .ok (.bool p.hasNext) := by
  simp [mediaObj, Json.getPath, Json.getItem, List.foldlM, List.lookup,
        Bind.bind, Except.bind, pure, Except.pure]

lemma mediaObj_endCursor (p : Page) :
    (mediaObj p).getPath ["page_info", "end_cursor"] = .ok p.endCursor := by
  simp [mediaObj, Json.getPath, Json.getItem, List.foldlM, List.lookup,
        Bind.bind, Except.bind, pure, Except.pure]

lemma mediaObj_edges (p : Page) : (mediaObj p).getItem "edges" = .ok (.arr p.edges) := by
  simp [mediaObj, Json.getItem, List.lookup]

lemma totalFromBody_mkBody (cfg : IterCfg) (p : Page) :
    totalFromBody cfg (mkBody cfg p) = countTotal p.count := by
  simp [totalFromBody, Json.getPath, mkBody, pageData, pageSection, mediaObj,
        Json.getItem, List.foldlM, List.lookup, Bind.bind, Except.bind, pure, Except.pure]

/-- A response body whose `'data'` subscript raises `KeyError` (the
malformed / error response shape that `_page_loader` retries on). -/
def missingDataBody (b : Json) : Prop :=
  b.getItem "data" = .error .keyError

lemma totalFromBody_missingData {cfg : IterCfg} {b : Json}
    (h : missingDataBody b) : totalFromBody cfg b = 0 := by
  unfold missingDataBody at h
  simp [totalFromBody, Json.getPath, List.foldlM, h, Bind.bind, Except.bind]

/-- A successful signed fetch of a well-formed page body. -/
lemma pageLoaderAttempt_page {cfg : IterCfg} {csrf : String} {env : Env}
    {st : IterState} {p : Page} (hc : cfg.csrf = some csrf)
    (henv : env st.log.length = mkBody cfg p) :
    pageLoaderAttempt cfg env st =
      .yielded (stAfterFetch cfg csrf st (countTotal p.count)) (pageData cfg p) := by
  simp only [pageLoaderAttempt, hc, henv, totalFromBody_mkBody, getItem_mkBody_data,
             stAfterFetch, fetchRecOf]

/-- A signed fetch that gets the malformed / error shape: `self._total` is set
to `0` and the loop retries after the sleep. -/
lemma pageLoaderAttempt_missingData {cfg : IterCfg} {csrf : String} {env : Env}
    {st : IterState} (hc : cfg.csrf = some csrf)
    (henv : missingDataBody (env st.log.length)) :
    pageLoaderAttempt cfg env st = .retry (stAfterFetch cfg csrf st 0) := by
  simp only [pageLoaderAttempt, hc, totalFromBody_missingData henv, stAfterFetch, fetchRecOf]
  rw [henv]

/-- One `next(self._data_it)` on a live generator facing a well-formed body:
exactly one request, no sleep. -/
lemma pageLoaderNext_page {cfg : IterCfg} {csrf : String} {env : Env}
    {st : IterState} {p : Page} (fuel : Nat) (hc : cfg.csrf = some csrf)
    (hd : st.genDead = false) (henv : env st.log.length = mkBody cfg p) :
    pageLoaderNext cfg env (fuel + 1) st 0 =
      .ok (stAfterFetch cfg csrf st (countTotal p.count)) (pageData cfg p) 0 := by
  simp [pageLoaderNext, hd, pageLoaderAttempt_page hc henv]

/-- `__next__` on a fresh page whose `has_next_page` is false: the page is
yielded and the iterator becomes finished, without touching the cursor. -/
lemma nextStep_terminal {cfg : IterCfg} {csrf : String} {env : Env}
    {st : IterState} {p : Page} (fuel : Nat) (hc : cfg.csrf = some csrf)
    (hf : st.finished = false) (hd : st.genDead = false)
    (henv : env st.log.length = mkBody cfg p) (hterm : p.hasNext = false) :
    nextStep cfg env (fuel + 1) st =
      .yielded { stAfterFetch cfg csrf st (countTotal p.count) with finished := true }
        (pageSection cfg p) := by
  simp [nextStep, processData, hf, pageLoaderNext_page fuel hc hd henv,
        getItem_pageData, getItem_pageSection, mediaObj_hasNext, hterm, Json.truthy]

/-- `__next__` on a fresh page with `has_next_page` true and nonempty
`edges`: the page is yielded, the cursor advances to its `end_cursor`. -/
lemma nextStep_nonterminal {cfg : IterCfg} {csrf : String} {env : Env}
    {st : IterState} {p : Page} (fuel : Nat) (hc : cfg.csrf = some csrf)
    (hf : st.finished = false) (hd : st.genDead = false)
    (henv : env st.log.length = mkBody cfg p) (hnext : p.hasNext = true)
    (hedges : p.edges ≠ []) :
    nextStep cfg env (fuel + 1) st =
      .yielded { stAfterFetch cfg csrf st (countTotal p.count) with
                   cursor := p.endCursor, currentPage := st.currentPage + 1 }
        (pageSection cfg p) := by
  have he : p.edges.isEmpty = false := by
    cases h : p.edges with
    | nil => exact absurd h hedges
    | cons a as => rfl
  simp [nextStep, processData, hf, pageLoaderNext_page fuel hc hd henv,
        getItem_pageData, getItem_pageSection, mediaObj_hasNext, mediaObj_edges,
        mediaObj_endCursor, hnext, he, Json.truthy, stAfterFetch]

/-- `__next__` on a fresh page with `has_next_page` true and empty `edges`:
`StopIteration` is raised and the page is dropped. -/
lemma nextStep_emptyEdges {cfg : IterCfg} {csrf : String} {env : Env}
    {st : IterState} {p : Page} (fuel : Nat) (hc : cfg.csrf = some csrf)
    (hf : st.finished = false) (hd : st.genDead = false)
    (henv : env st.log.length = mkBody cfg p) (hnext : p.hasNext = true)
    (hedges : p.edges = []) :
    nextStep cfg env (fuel + 1) st =
      .stop { stAfterFetch cfg csrf st (countTotal p.count) with finished := true } := by
  simp [nextStep, processData, hf, pageLoaderNext_page fuel hc hd henv,
        getItem_pageData, getItem_pageSection, mediaObj_hasNext, mediaObj_edges,
        hnext, hedges, Json.truthy]

/-- `__next__` on a finished iterator: immediate `StopIteration`, state
untouched (in particular no request is issued). -/
lemma nextStep_finished {cfg : IterCfg} {env : Env} {st : IterState}
    (fuel : Nat) (hf : st.finished = true) :
    nextStep cfg env fuel st = .stop st := by
  simp [nextStep, hf]

/-- `__length_hint__` when `self._total` is already known: no request. -/
lemma lengthHint_known {cfg : IterCfg} {env : Env} {st : IterState} {t : Int}
    (fuel : Nat) (ht : st.total = some t) :
    lengthHint cfg env fuel st = .ok st (t - st.done) := by
  simp [lengthHint, ht]

/-- `__length_hint__` when the total is unknown: one item is pulled from the
shared generator and discarded after its count is read; the cursor is not
advanced. -/
lemma lengthHint_fetch {cfg : IterCfg} {csrf : String} {env : Env}
    {st : IterState} {p : Page} (fuel : Nat) (hc : cfg.csrf = some csrf)
    (ht : st.total = none) (hd : st.genDead = false)
    (henv : env st.log.length = mkBody cfg p) :
    lengthHint cfg env (fuel + 1) st =
      .ok (stAfterFetch cfg csrf st (countTotal p.count))
        (countTotal p.count - st.done) := by
  have hcount : (pageData cfg p).getPath
      [cfg.sectionGeneric, cfg.sectionMedia, "count"] = .ok p.count := by
    simp [Json.getPath, List.foldlM, getItem_pageData, Bind.bind, Except.bind,
          pure, Except.pure, pageData, pageSection, mediaObj, Json.getItem, List.lookup]
  simp [lengthHint, hintOfData, ht, pageLoaderNext_page fuel hc hd henv, hcount,
        stAfterFetch]

/-- A dummy page, the default of positional list access. -/
def dummyPage : Page :=
  { count := .num 0, hasNext := false, endCursor := .null, edges := [] }

/-- The cursors used by the successive requests of a run that starts at
cursor `c0` and walks the given pages: the first request uses `c0`, each
later one the previous page's `end_cursor`. -/
def chainCursors (c0 : Json) : List Page → List Json
  | [] => []
  | p :: rest => c0 :: chainCursors p.endCursor rest

lemma chainCursors_eq (c0 : Json) :
    ∀ ps : List Page, ps ≠ [] →
      chainCursors c0 ps = c0 :: ps.dropLast.map Page.endCursor := by
  intro ps
  induction ps generalizing c0 with
  | nil => intro h; exact absurd rfl h
  | cons p rest ih =>
    intro _
    cases rest with
    | nil => simp [chainCursors]
    | cons q rest' =>
      rw [chainCursors, ih p.endCursor (by simp), List.dropLast_cons₂, List.map_cons]

lemma stAfterFetch_log_map (cfg : IterCfg) (csrf : String) (st : IterState) (t : Int) :
    (stAfterFetch cfg csrf st t).log.map FetchRec.cursor =
      st.log.map FetchRec.cursor ++ [st.cursor] := by
  simp [stAfterFetch, fetchRecOf]

/-- Unfold one `__next__` call of a run that yielded. -/
lemma runNexts_succ_yield {cfg : IterCfg} {env : Env} {fuel n : Nat}
    {st st' : IterState} {v : Json}
    (h : nextStep cfg env fuel st = .yielded st' v) :
    runNexts cfg env fuel (n + 1) st =
      match runNexts cfg env fuel n st' with
      | .done vs stF => .done (v :: vs) stF
      | .stopped vs stF => .stopped (v :: vs) stF
      | .failed vs => .failed (v :: vs) := by
  simp [runNexts, h]

/-- Walking a list of well-formed pages (all nonterminal but the last, which
is terminal): every page is yielded in order, the final state is finished,
and the request cursors chain through the pages' end cursors. -/
lemma runNexts_chain (cfg : IterCfg) (csrf : String) (env : Env)
    (hc : cfg.csrf = some csrf) :
    ∀ (ps : List Page) (st : IterState),
      st.finished = false → st.genDead = false →
      (∀ i, i < ps.length → env (st.log.length + i) = mkBody cfg (ps.getD i dummyPage)) →
      (∀ p ∈ ps.dropLast, p.hasNext = true ∧ p.edges ≠ []) →
      (∀ p, ps.getLast? = some p → p.hasNext = false) →
      ∃ stF, runNexts cfg env 1 ps.length st = .done (ps.map (pageSection cfg)) stF ∧
             stF.log.map FetchRec.cursor =
               st.log.map FetchRec.cursor ++ chainCursors st.cursor ps ∧
             (ps ≠ [] → stF.finished = true) := by
  intro ps
  induction ps with
  | nil =>
    intro st _ _ _ _ _
    exact ⟨st, rfl, by simp [chainCursors], by simp⟩
  | cons p rest ih =>
    intro st hf hd henv hmid hlast
    have henv0 : env st.log.length = mkBody cfg p := by
      have := henv 0 (by simp)
      simpa using this
    cases rest with
    | nil =>
      have hterm : p.hasNext = false := hlast p (by simp)
      have hstep : nextStep cfg env 1 st =
          .yielded { stAfterFetch cfg csrf st (countTotal p.count) with finished := true }
            (pageSection cfg p) := by
        simpa using @nextStep_terminal cfg csrf env st p 0 hc hf hd henv0 hterm
      refine ⟨{ stAfterFetch cfg csrf st (countTotal p.count) with finished := true },
              ?_, ?_, fun _ => rfl⟩
      · rw [show ([p] : List Page).length = 0 + 1 from rfl, runNexts_succ_yield hstep]
        rfl
      · simp [chainCursors, stAfterFetch, fetchRecOf]
    | cons q rest' =>
      have hp := hmid p (by simp [List.dropLast_cons₂])
      have hstep : nextStep cfg env 1 st =
          .yielded { stAfterFetch cfg csrf st (countTotal p.count) with
                       cursor := p.endCursor, currentPage := st.currentPage + 1 }
            (pageSection cfg p) := by
        simpa using @nextStep_nonterminal cfg csrf env st p 0
          hc hf hd henv0 hp.1 hp.2
      set stN : IterState :=
        { stAfterFetch cfg csrf st (countTotal p.count) with
            cursor := p.endCursor, currentPage := st.currentPage + 1 } with hstN
      have hlogN : stN.log.length = st.log.length + 1 := by
        simp [hstN, stAfterFetch]
      obtain ⟨stF, hrun, hlog, hfin⟩ := ih stN (by simp [hstN, stAfterFetch, hf])
        (by simp [hstN, stAfterFetch, hd])
        (by
          intro i hi
          have := henv (i + 1) (by simpa using Nat.succ_lt_succ hi)
          rw [hlogN]
          rw [show st.log.length + 1 + i = st.log.length + (i + 1) by omega]
          simpa using this)
        (by
          intro p' hp'
          exact hmid p' (by simp [List.dropLast_cons₂]; right; simpa using hp'))
        (by
          intro p' hp'
          exact hlast p' (by rw [List.getLast?_cons_cons]; exact hp'))
      refine ⟨stF, ?_, ?_, fun _ => hfin (by simp)⟩
      · rw [show (p :: q :: rest').length = (q :: rest').length + 1 from rfl,
            runNexts_succ_yield hstep, hrun]
        rfl
      · rw [hlog]
        have hmap : stN.log.map FetchRec.cursor =
            st.log.map FetchRec.cursor ++ [st.cursor] := by
          simp [hstN, stAfterFetch, fetchRecOf]
        have hcur : stN.cursor = p.endCursor := by simp [hstN, stAfterFetch]
        rw [hmap, hcur]
        simp [chainCursors]

/-! ### Retry behaviour of `_page_loader` -/

/-- One retry loop iteration over the malformed shape, then recursion. -/
lemma pageLoaderNext_retry_step {cfg : IterCfg} {csrf : String} {env : Env}
    {st : IterState} (fuel slept : Nat) (hc : cfg.csrf = some csrf)
    (hd : st.genDead = false) (henv : missingDataBody (env st.log.length)) :
    pageLoaderNext cfg env (fuel + 1) st slept =
      pageLoaderNext cfg env fuel (stAfterFetch cfg csrf st 0) (slept + 10) := by
  simp [pageLoaderNext, hd, pageLoaderAttempt_missingData hc henv]

/-- `m` malformed responses followed by a well-formed page: the loader sleeps
`10 * m`, issues `m + 1` requests, every request reusing the unchanged
cursor (and hence identical serialized parameters), and finally yields the
well-formed page. -/
lemma pageLoaderNext_retries (cfg : IterCfg) (csrf : String) (env : Env)
    (p : Page) (hc : cfg.csrf = some csrf) :
    ∀ (m : Nat) (st : IterState) (slept : Nat), st.genDead = false →
      (∀ i, i < m → missingDataBody (env (st.log.length + i))) →
      env (st.log.length + m) = mkBody cfg p →
      ∃ stF, pageLoaderNext cfg env (m + 1) st slept =
               .ok stF (pageData cfg p) (slept + 10 * m) ∧
             stF.log.map FetchRec.cursor =
               st.log.map FetchRec.cursor ++ List.replicate (m + 1) st.cursor ∧
             stF.log.map FetchRec.jsonParams =
               st.log.map FetchRec.jsonParams ++
                 List.replicate (m + 1) (jsonDumps (cfg.getparams st.cursor)) ∧
             stF.cursor = st.cursor ∧ stF.finished = st.finished := by
  intro m
  induction m with
  | zero =>
    intro st slept hd hbad henv
    refine ⟨stAfterFetch cfg csrf st (countTotal p.count), ?_, ?_, ?_, rfl, rfl⟩
    · have henv0 : env st.log.length = mkBody cfg p := by simpa using henv
      simp [pageLoaderNext, hd, pageLoaderAttempt_page hc henv0]
    · simp [stAfterFetch, fetchRecOf]
    · simp [stAfterFetch, fetchRecOf]
  | succ m ih =>
    intro st slept hd hbad henv
    have hbad0 : missingDataBody (env st.log.length) := by
      have := hbad 0 (by omega)
      simpa using this
    set stR : IterState := stAfterFetch cfg csrf st 0 with hstR
    have hlogR : stR.log.length = st.log.length + 1 := by simp [hstR, stAfterFetch]
    obtain ⟨stF, hrun, hcur, hpar, hc0, hf0⟩ := ih stR (slept + 10)
      (by simp [hstR, stAfterFetch, hd])
      (by
        intro i hi
        rw [hlogR, show st.log.length + 1 + i = st.log.length + (i + 1) by omega]
        exact hbad (i + 1) (by omega))
      (by
        rw [hlogR, show st.log.length + 1 + m = st.log.length + (m + 1) by omega]
        exact henv)
    have hcurR : stR.cursor = st.cursor := by simp [hstR, stAfterFetch]
    refine ⟨stF, ?_, ?_, ?_, by rw [hc0, hcurR], by rw [hf0]; simp [hstR, stAfterFetch]⟩
    · rw [show m + 1 + 1 = (m + 1) + 1 from rfl,
          pageLoaderNext_retry_step (m + 1) slept hc hd hbad0, ← hstR, hrun]
      congr 1
      omega
    · rw [hcur, hcurR, hstR, stAfterFetch_log_map]
      simp [List.replicate_succ, List.append_assoc]
    · rw [hpar, hcurR, hstR]
      have : (stAfterFetch cfg csrf st 0).log.map FetchRec.jsonParams =
          st.log.map FetchRec.jsonParams ++ [jsonDumps (cfg.getparams st.cursor)] := by
        simp [stAfterFetch, fetchRecOf]
      rw [this]
      simp [List.replicate_succ, List.append_assoc]

/-- Against an environment that only ever answers the malformed shape, the
loader never returns: every retry budget is exhausted with one 10-unit sleep
per issued request. -/
lemma pageLoaderNext_allBad (cfg : IterCfg) (csrf : String) (env : Env)
    (hc : cfg.csrf = some csrf) (hbad : ∀ i, missingDataBody (env i)) :
    ∀ (fuel : Nat) (st : IterState) (slept : Nat), st.genDead = false →
      ∃ stF, pageLoaderNext cfg env fuel st slept = .fuelOut stF (slept + 10 * fuel) := by
  intro fuel
  induction fuel with
  | zero =>
    intro st slept hd
    exact ⟨st, by simp [pageLoaderNext, hd]⟩
  | succ fuel ih =>
    intro st slept hd
    obtain ⟨stF, hrun⟩ := ih (stAfterFetch cfg csrf st 0) (slept + 10)
      (by simp [stAfterFetch, hd])
    refine ⟨stF, ?_⟩
    rw [pageLoaderNext_retry_step fuel slept hc hd (hbad _), hrun]
    congr 1
    omega

/-! ### Reachable states and invariants -/

/-- The object state after one loop-body iteration of `_page_loader`. -/
def AttemptRes.state : AttemptRes → IterState
  | .yielded st _ => st
  | .retry st => st
  | .crash st _ => st

/-- The object state after `next(self._data_it)`. -/
def LoaderRes.state : LoaderRes → IterState
  | .ok st _ _ => st
  | .stopIter st => st
  | .crash st _ => st
  | .fuelOut st _ => st

/-- Exhaustive description of one `_page_loader` iteration: either the CSRF
header is missing (retry with untouched state), or a request was issued and
the state advanced to `stAfterFetch`, possibly with the generator dying. -/
lemma pageLoaderAttempt_cases (cfg : IterCfg) (env : Env) (st : IterState) :
    (cfg.csrf = none ∧ pageLoaderAttempt cfg env st = .retry st) ∨
    (∃ csrf, cfg.csrf = some csrf ∧
      ((∃ data, pageLoaderAttempt cfg env st =
          .yielded (stAfterFetch cfg csrf st (totalFromBody cfg (env st.log.length))) data) ∨
       pageLoaderAttempt cfg env st =
          .retry (stAfterFetch cfg csrf st (totalFromBody cfg (env st.log.length))) ∨
       (∃ e, pageLoaderAttempt cfg env st =
          .crash { stAfterFetch cfg csrf st (totalFromBody cfg (env st.log.length)) with
                     genDead := true } e))) := by
  cases hc : cfg.csrf with
  | none =>
    exact Or.inl ⟨rfl, by simp only [pageLoaderAttempt, hc]⟩
  | some csrf =>
    refine Or.inr ⟨csrf, rfl, ?_⟩
    simp only [pageLoaderAttempt, hc]
    cases h : (env st.log.length).getItem "data" with
    | ok data => exact Or.inl ⟨data, rfl⟩
    | error e =>
      cases e with
      | keyError => exact Or.inr (Or.inl rfl)
      | typeError => exact Or.inr (Or.inr ⟨_, rfl⟩)
      | indexError => exact Or.inr (Or.inr ⟨_, rfl⟩)
      | stopIter => exact Or.inr (Or.inr ⟨_, rfl⟩)
      | valueError m => exact Or.inr (Or.inr ⟨_, rfl⟩)
      | runtimeError m => exact Or.inr (Or.inr ⟨_, rfl⟩)
      | attributeError => exact Or.inr (Or.inr ⟨_, rfl⟩)

lemma pageLoaderAttempt_state_finished (cfg : IterCfg) (env : Env) (st : IterState) :
    (pageLoaderAttempt cfg env st).state.finished = st.finished := by
  rcases pageLoaderAttempt_cases cfg env st with ⟨_, h⟩ | ⟨csrf, _, ⟨data, h⟩ | h | ⟨e, h⟩⟩ <;>
    rw [h] <;> simp [AttemptRes.state, stAfterFetch]

lemma pageLoaderAttempt_retry_genDead {cfg : IterCfg} {env : Env}
    {st st' : IterState} (h : pageLoaderAttempt cfg env st = .retry st') :
    st'.genDead = st.genDead := by
  rcases pageLoaderAttempt_cases cfg env st with ⟨_, h2⟩ | ⟨csrf, _, ⟨data, h2⟩ | h2 | ⟨e, h2⟩⟩ <;>
    rw [h2] at h
  · cases h; rfl
  · cases h
  · cases h; simp [stAfterFetch]
  · cases h

lemma pageLoaderAttempt_yielded_total {cfg : IterCfg} {env : Env}
    {st st' : IterState} {data : Json}
    (h : pageLoaderAttempt cfg env st = .yielded st' data) : st'.total.isSome := by
  rcases pageLoaderAttempt_cases cfg env st with ⟨_, h2⟩ | ⟨csrf, _, ⟨data2, h2⟩ | h2 | ⟨e, h2⟩⟩ <;>
    rw [h2] at h
  · cases h
  · cases h; simp [stAfterFetch]
  · cases h
  · cases h

/-- Unfold one live loop iteration of `next(self._data_it)`. -/
lemma pageLoaderNext_succ_eq (cfg : IterCfg) (env : Env) (fuel : Nat)
    (st : IterState) (slept : Nat) (hd : st.genDead = false) :
    pageLoaderNext cfg env (fuel + 1) st slept =
      match pageLoaderAttempt cfg env st with
      | .yielded st' data => .ok st' data slept
      | .retry st' => pageLoaderNext cfg env fuel st' (slept + 10)
      | .crash st' e => .crash st' e := by
  simp [pageLoaderNext, hd]

lemma pageLoaderNext_state_finished (cfg : IterCfg) (env : Env) :
    ∀ (fuel : Nat) (st : IterState) (slept : Nat),
      (pageLoaderNext cfg env fuel st slept).state.finished = st.finished := by
  intro fuel
  induction fuel with
  | zero =>
    intro st slept
    unfold pageLoaderNext
    split <;> rfl
  | succ fuel ih =>
    intro st slept
    by_cases hd : st.genDead = true
    · simp [pageLoaderNext, hd, LoaderRes.state]
    · rw [pageLoaderNext_succ_eq cfg env fuel st slept (by simpa using hd)]
      have hfin := pageLoaderAttempt_state_finished cfg env st
      rcases pageLoaderAttempt_cases cfg env st with ⟨_, h2⟩ | ⟨csrf, _, ⟨data, h2⟩ | h2 | ⟨e, h2⟩⟩ <;>
        rw [h2] at hfin ⊢
      · rw [ih st (slept + 10)]
      · simpa [AttemptRes.state, LoaderRes.state] using hfin
      · rw [ih _ (slept + 10)]
        simpa [AttemptRes.state] using hfin
      · simpa [AttemptRes.state, LoaderRes.state] using hfin

lemma pageLoaderNext_stopIter_shape {cfg : IterCfg} {env : Env} :
    ∀ {fuel : Nat} {st st' : IterState} {slept : Nat},
      pageLoaderNext cfg env fuel st slept = .stopIter st' →
      st' = st ∧ st.genDead = true := by
  intro fuel
  induction fuel with
  | zero =>
    intro st st' slept h
    unfold pageLoaderNext at h
    by_cases hd : st.genDead = true
    · rw [if_pos hd] at h
      cases h
      exact ⟨rfl, hd⟩
    · rw [if_neg hd] at h
      cases h
  | succ fuel ih =>
    intro st st' slept h
    by_cases hd : st.genDead = true
    · unfold pageLoaderNext at h
      rw [if_pos hd] at h
      cases h
      exact ⟨rfl, hd⟩
    · rw [pageLoaderNext_succ_eq cfg env fuel st slept (by simpa using hd)] at h
      rcases pageLoaderAttempt_cases cfg env st with ⟨_, h2⟩ | ⟨csrf, _, ⟨data, h2⟩ | h2 | ⟨e, h2⟩⟩ <;>
        rw [h2] at h
      · exact absurd (ih h).2 (by simpa using hd)
      · cases h
      · have := (ih h).2
        simp only [stAfterFetch] at this
        exact absurd this (by simpa using hd)
      · cases h

lemma pageLoaderNext_ok_total {cfg : IterCfg} {env : Env} :
    ∀ {fuel : Nat} {st st' : IterState} {data : Json} {slept sl : Nat},
      pageLoaderNext cfg env fuel st slept = .ok st' data sl →
      st'.total.isSome := by
  intro fuel
  induction fuel with
  | zero =>
    intro st st' data slept sl h
    unfold pageLoaderNext at h
    by_cases hd : st.genDead = true
    · rw [if_pos hd] at h; cases h
    · rw [if_neg hd] at h; cases h
  | succ fuel ih =>
    intro st st' data slept sl h
    by_cases hd : st.genDead = true
    · unfold pageLoaderNext at h
      rw [if_pos hd] at h
      cases h
    · rw [pageLoaderNext_succ_eq cfg env fuel st slept (by simpa using hd)] at h
      rcases pageLoaderAttempt_cases cfg env st with ⟨_, h2⟩ | ⟨csrf, _, ⟨data2, h2⟩ | h2 | ⟨e, h2⟩⟩ <;>
        rw [h2] at h
      · exact ih h
      · cases h
        simp [stAfterFetch]
      · exact ih h
      · cases h

/-- The state component of a `__next__` outcome never touches the log except
through the loader; same for `__length_hint__`.  `Reach` is the set of object
states reachable from construction by any interleaving of `__next__` and
`__length_hint__` calls with any retry budgets. -/
inductive Reach (cfg : IterCfg) (env : Env) : IterState → Prop where
  | init : Reach cfg env initState
  | next (fuel : Nat) {s : IterState} :
      Reach cfg env s → Reach cfg env (nextStep cfg env fuel s).state
  | hint (fuel : Nat) {s : IterState} :
      Reach cfg env s → Reach cfg env (lengthHint cfg env fuel s).state

lemma processData_state_fields (cfg : IterCfg) (st' : IterState) (data : Json) :
    (processData cfg st' data).state.total = st'.total ∧
    (processData cfg st' data).state.log = st'.log := by
  unfold processData
  cases h1 : data.getItem cfg.sectionGeneric with
  | error e => exact ⟨rfl, rfl⟩
  | ok gsec =>
    simp only []
    cases h2 : gsec.getItem cfg.sectionMedia with
    | error e => exact ⟨rfl, rfl⟩
    | ok mi =>
      simp only []
      cases h3 : mi.getPath ["page_info", "has_next_page"] with
      | error e => exact ⟨rfl, rfl⟩
      | ok hn =>
        simp only []
        cases hb : hn.truthy with
        | false =>
          simp only [hb, Bool.not_false]
          rw [if_pos trivial]
          exact ⟨rfl, rfl⟩
        | true =>
          simp only [hb, Bool.not_true]
          rw [if_neg (fun h => nomatch h)]
          cases h4 : mi.getItem "edges" with
          | error e => exact ⟨rfl, rfl⟩
          | ok edges =>
            simp only []
            cases he : edges.truthy with
            | false =>
              simp only [he, Bool.not_false]
              rw [if_pos trivial]
              exact ⟨rfl, rfl⟩
            | true =>
              simp only [he, Bool.not_true]
              rw [if_neg (fun h => nomatch h)]
              cases h5 : mi.getPath ["page_info", "end_cursor"] with
              | error e => exact ⟨rfl, rfl⟩
              | ok ec => exact ⟨rfl, rfl⟩

lemma hintOfData_state_total_isSome (cfg : IterCfg) (st' : IterState) (data : Json)
    (h : st'.total.isSome) : (hintOfData cfg st' data).state.total.isSome := by
  unfold hintOfData
  cases data.getPath [cfg.sectionGeneric, cfg.sectionMedia, "count"] with
  | ok c => rfl
  | error e =>
    cases e with
    | typeError => rfl
    | keyError => exact h
    | indexError => exact h
    | stopIter => exact h
    | valueError m => exact h
    | runtimeError m => exact h
    | attributeError => exact h

lemma hintOfData_state_log (cfg : IterCfg) (st' : IterState) (data : Json) :
    (hintOfData cfg st' data).state.log = st'.log := by
  unfold hintOfData
  cases data.getPath [cfg.sectionGeneric, cfg.sectionMedia, "count"] with
  | ok c => rfl
  | error e =>
    cases e with
    | typeError => rfl
    | keyError => rfl
    | indexError => rfl
    | stopIter => rfl
    | valueError m => rfl
    | runtimeError m => rfl
    | attributeError => rfl

lemma hintOfCrash_state_finished (st' : IterState) (e : PyErr) :
    (hintOfCrash st' e).state.finished = st'.finished := by
  unfold hintOfCrash
  cases e <;> rfl

lemma hintOfCrash_state_log (st' : IterState) (e : PyErr) :
    (hintOfCrash st' e).state.log = st'.log := by
  unfold hintOfCrash
  cases e <;> rfl

/-- `finished → total known` is preserved by `__next__`. -/
lemma nextStep_state_inv (cfg : IterCfg) (env : Env) (fuel : Nat) (st : IterState)
    (hinv : st.finished = true → st.total.isSome) :
    (nextStep cfg env fuel st).state.finished = true →
      (nextStep cfg env fuel st).state.total.isSome := by
  unfold nextStep
  by_cases hf : st.finished = true
  · simp only [hf, if_true]
    exact fun _ => hinv hf
  · simp only [hf, if_false, Bool.false_eq_true]
    cases hl : pageLoaderNext cfg env fuel st 0 with
    | stopIter st' =>
      have heq := (pageLoaderNext_stopIter_shape hl).1
      subst heq
      exact fun h => hinv h
    | crash st' e =>
      have hfin := pageLoaderNext_state_finished cfg env fuel st 0
      rw [hl] at hfin
      simp only [LoaderRes.state] at hfin
      intro h
      rw [NextRes.state] at h
      rw [h] at hfin
      exact absurd hfin.symm hf
    | fuelOut st' slept =>
      have hfin := pageLoaderNext_state_finished cfg env fuel st 0
      rw [hl] at hfin
      simp only [LoaderRes.state] at hfin
      intro h
      rw [NextRes.state] at h
      rw [h] at hfin
      exact absurd hfin.symm hf
    | ok st' data slept =>
      have htot := pageLoaderNext_ok_total hl
      intro _
      show (processData cfg st' data).state.total.isSome = true
      rw [(processData_state_fields cfg st' data).1]
      exact htot

/-- `finished → total known` is preserved by `__length_hint__`. -/
lemma lengthHint_state_inv (cfg : IterCfg) (env : Env) (fuel : Nat) (st : IterState)
    (hinv : st.finished = true → st.total.isSome) :
    (lengthHint cfg env fuel st).state.finished = true →
      (lengthHint cfg env fuel st).state.total.isSome := by
  unfold lengthHint
  cases ht : st.total with
  | some t =>
    intro _
    show st.total.isSome = true
    rw [ht]
    rfl
  | none =>
    have hf : st.finished = false := by
      cases hsf : st.finished
      · rfl
      · have := hinv hsf
        rw [ht] at this
        cases this
    cases hl : pageLoaderNext cfg env fuel st 0 with
    | stopIter st' =>
      exact fun _ => rfl
    | crash st' e =>
      have hfin := pageLoaderNext_state_finished cfg env fuel st 0
      rw [hl] at hfin
      simp only [LoaderRes.state] at hfin
      intro h
      have h' : (hintOfCrash st' e).state.finished = true := h
      rw [hintOfCrash_state_finished] at h'
      rw [h'] at hfin
      rw [hf] at hfin
      cases hfin
    | fuelOut st' slept =>
      have hfin := pageLoaderNext_state_finished cfg env fuel st 0
      rw [hl] at hfin
      simp only [LoaderRes.state] at hfin
      intro h
      rw [HintRes.state] at h
      rw [h, hf] at hfin
      cases hfin
    | ok st' data slept =>
      intro _
      show (hintOfData cfg st' data).state.total.isSome = true
      exact hintOfData_state_total_isSome cfg st' data (pageLoaderNext_ok_total hl)

/-- Every reachable state satisfies: once `finished` is set, `self._total`
is known. -/
lemma reach_finished_total {cfg : IterCfg} {env : Env} {s : IterState}
    (h : Reach cfg env s) : s.finished = true → s.total.isSome := by
  induction h with
  | init => intro h; cases h
  | next fuel _ ih => exact nextStep_state_inv cfg env fuel _ ih
  | hint fuel _ ih => exact lengthHint_state_inv cfg env fuel _ ih

/-- A request record correctly signed for the given configuration: the
serialized parameters come from its own cursor, and the header is the MD5 of
`"<rhx>:<csrf>:<params>"`. -/
def signedRec (cfg : IterCfg) (csrf : String) (r : FetchRec) : Prop :=
  r.jsonParams = jsonDumps (cfg.getparams r.cursor) ∧
  r.gis = md5hex (utf8Bytes (cfg.rhx ++ ":" ++ csrf ++ ":" ++ r.jsonParams))

lemma pageLoaderAttempt_log {cfg : IterCfg} {env : Env} {st : IterState}
    {csrf : String} (hc : cfg.csrf = some csrf) :
    ∀ r ∈ (pageLoaderAttempt cfg env st).state.log,
      r ∈ st.log ∨ signedRec cfg csrf r := by
  rcases pageLoaderAttempt_cases cfg env st with ⟨hnone, h2⟩ | ⟨c, hc2, ⟨data, h2⟩ | h2 | ⟨e, h2⟩⟩
  · rw [h2]
    exact fun r hr => Or.inl hr
  all_goals
    rw [hc] at hc2
    cases Option.some.inj hc2
    rw [h2]
    intro r hr
    rcases List.mem_append.mp hr with hm | hm
    · exact Or.inl hm
    · right
      rw [List.mem_singleton] at hm
      subst hm
      exact ⟨rfl, rfl⟩

lemma pageLoaderNext_log {cfg : IterCfg} {env : Env} {csrf : String}
    (hc : cfg.csrf = some csrf) :
    ∀ (fuel : Nat) (st : IterState) (slept : Nat),
      ∀ r ∈ (pageLoaderNext cfg env fuel st slept).state.log,
        r ∈ st.log ∨ signedRec cfg csrf r := by
  intro fuel
  induction fuel with
  | zero =>
    intro st slept r hr
    unfold pageLoaderNext at hr
    revert hr
    split <;> exact fun hr => Or.inl hr
  | succ fuel ih =>
    intro st slept r hr
    by_cases hd : st.genDead = true
    · unfold pageLoaderNext at hr
      rw [if_pos hd] at hr
      exact Or.inl hr
    · rw [pageLoaderNext_succ_eq cfg env fuel st slept (by simpa using hd)] at hr
      have halog := @pageLoaderAttempt_log cfg env st csrf hc
      rcases pageLoaderAttempt_cases cfg env st with ⟨hnone, h2⟩ | ⟨c, hc2, ⟨data, h2⟩ | h2 | ⟨e, h2⟩⟩ <;>
        rw [h2] at hr halog
      · exact ih st (slept + 10) r hr
      · exact halog r hr
      · rcases ih _ (slept + 10) r hr with hmem | hs
        · exact halog r hmem
        · exact Or.inr hs
      · exact halog r hr

lemma nextStep_state_log {cfg : IterCfg} {env : Env} {csrf : String}
    (hc : cfg.csrf = some csrf) (fuel : Nat) (st : IterState) :
    ∀ r ∈ (nextStep cfg env fuel st).state.log,
      r ∈ st.log ∨ signedRec cfg csrf r := by
  unfold nextStep
  by_cases hf : st.finished = true
  · simp only [hf, if_true]
    exact fun r hr => Or.inl hr
  · simp only [hf, if_false, Bool.false_eq_true]
    have hll := @pageLoaderNext_log cfg env csrf hc fuel st 0
    cases hl : pageLoaderNext cfg env fuel st 0 with
    | stopIter st' =>
      rw [hl] at hll
      exact fun r hr => hll r hr
    | crash st' e =>
      rw [hl] at hll
      exact fun r hr => hll r hr
    | fuelOut st' slept =>
      rw [hl] at hll
      exact fun r hr => hll r hr
    | ok st' data slept =>
      rw [hl] at hll
      intro r hr
      have hr' : r ∈ (processData cfg st' data).state.log := hr
      rw [(processData_state_fields cfg st' data).2] at hr'
      exact hll r hr'

lemma lengthHint_state_log {cfg : IterCfg} {env : Env} {csrf : String}
    (hc : cfg.csrf = some csrf) (fuel : Nat) (st : IterState) :
    ∀ r ∈ (lengthHint cfg env fuel st).state.log,
      r ∈ st.log ∨ signedRec cfg csrf r := by
  unfold lengthHint
  cases ht : st.total with
  | some t => exact fun r hr => Or.inl hr
  | none =>
    have hll := @pageLoaderNext_log cfg env csrf hc fuel st 0
    cases hl : pageLoaderNext cfg env fuel st 0 with
    | stopIter st' =>
      rw [hl] at hll
      exact fun r hr => hll r hr
    | crash st' e =>
      rw [hl] at hll
      intro r hr
      have hr' : r ∈ (hintOfCrash st' e).state.log := hr
      rw [hintOfCrash_state_log] at hr'
      exact hll r hr'
    | fuelOut st' slept =>
      rw [hl] at hll
      exact fun r hr => hll r hr
    | ok st' data slept =>
      rw [hl] at hll
      intro r hr
      have hr' : r ∈ (hintOfData cfg st' data).state.log := hr
      rw [hintOfData_state_log] at hr'
      exact hll r hr'

/-- Every request ever issued by a reachable iterator carries a correctly
computed signature header. -/
lemma reach_log_signed {cfg : IterCfg} {env : Env} {csrf : String}
    (hc : cfg.csrf = some csrf) :
    ∀ {s : IterState}, Reach cfg env s → ∀ r ∈ s.log, signedRec cfg csrf r := by
  intro s h
  induction h with
  | init => intro r hr; cases hr
  | next fuel hs ih =>
    intro r hr
    rcases nextStep_state_log hc fuel _ r hr with hmem | hsigned
    · exact ih r hmem
    · exact hsigned
  | hint fuel hs ih =>
    intro r hr
    rcases lengthHint_state_log hc fuel _ r hr with hmem | hsigned
    · exact ih r hmem
    · exact hsigned

/-! ### Concrete environments used by witnesses and counterexamples -/

/-- Two-page environment: page A then page B. -/
def envAB : Env := fun i => if i = 0 then mkBody cfgW pageA else mkBody cfgW pageB

/-- Environment of a cursor-deterministic server observed through the request
sequence `null, null, "c1"`: it answers page A twice (for the two requests at
the null cursor) and then page B. -/
def envHintW : Env := fun i => if i ≤ 1 then mkBody cfgW pageA else mkBody cfgW pageB

/-- The malformed / error response shape: a JSON object with no `data` key. -/
def badBody : Json := .obj [("status", .str "fail")]

/-- One malformed response, then the terminal page. -/
def envRetryW : Env := fun i => if i = 0 then badBody else mkBody cfgW pageB

/-- A well-formed page body whose media section has no `count` field. -/
def bodyNC : Json :=
  .obj [("data", .obj [("user", .obj [("edge_owner_to_timeline_media",
    .obj [("page_info", .obj [("has_next_page", .bool true), ("end_cursor", .str "c2")]),
          ("edges", .arr [.str "e"])])])])]

/-- Page with a count, then the body without a count. -/
def envNC : Env := fun i => if i = 0 then mkBody cfgW pageA else bodyNC

/-- Environment answering the terminal page B forever. -/
def envTerm : Env := fun _ => mkBody cfgW pageB

/-- The iterator state after consuming the terminal page B: finished. -/
def sFin : IterState := (nextStep cfgW envTerm 1 initState).state

/-- A profile-resolution payload with the given privacy flags, owner id and
rotating token. -/
def mkProfile (priv followed : Bool) (idv rhxv : Json) : Json :=
  .obj [("entry_data", .obj [("ProfilePage",
          .arr [.obj [("graphql", .obj [("user",
            .obj [("is_private", .bool priv), ("followed_by_viewer", .bool followed),
                  ("id", idv)])])]])]),
        ("rhx_gis", rhxv)]

/-- Processing a terminal page body: the page is yielded and the iterator
finishes. -/
lemma processData_page_terminal {cfg : IterCfg} {st' : IterState} {p : Page}
    (hterm : p.hasNext = false) :
    processData cfg st' (pageData cfg p) =
      .yielded { st' with finished := true } (pageSection cfg p) := by
  simp [processData, getItem_pageData, getItem_pageSection, mediaObj_hasNext,
        hterm, Json.truthy]

/-! ### The claims -/

/-- Claim C1: for every sequence of N well-formed pages in which pages
1..N-1 have `has_next_page = true` and non-empty `edges` and page N has
`has_next_page = false`, iterating `__next__` yields exactly the N
generic-section objects, in order, the following call signals end-of-stream,
and the issued requests' cursors chain through the pages' reported
`end_cursor` values (the first request uses the initial null cursor, request
i+1 uses page i's `end_cursor`). -/
theorem c1_page_sequence_yields_all (cfg : IterCfg) (csrf : String)
    (ps : List Page) (hc : cfg.csrf = some csrf) (hne : ps ≠ [])
    (hmid : ∀ p ∈ ps.dropLast, p.hasNext = true ∧ p.edges ≠ [])
    (hlast : ∀ p, ps.getLast? = some p → p.hasNext = false) :
    ∃ stF, runNexts cfg (fun i => mkBody cfg (ps.getD i dummyPage)) 1 ps.length initState =
             .done (ps.map (pageSection cfg)) stF ∧
           stF.log.map FetchRec.cursor = Json.null :: ps.dropLast.map Page.endCursor ∧
           nextStep cfg (fun i => mkBody cfg (ps.getD i dummyPage)) 1 stF = .stop stF := by
  obtain ⟨stF, hrun, hlog, hfin⟩ := runNexts_chain cfg csrf
    (fun i => mkBody cfg (ps.getD i dummyPage)) hc ps initState rfl rfl
    (fun i _ => by simp [initState]) hmid hlast
  refine ⟨stF, hrun, ?_, nextStep_finished 1 (hfin hne)⟩
  rw [hlog]
  simp [initState, chainCursors_eq Json.null ps hne]

/-- Witness for C1 at the concrete two-page sequence `[pageA, pageB]`. -/
theorem c1_witness :
    (runNexts cfgW (fun i => mkBody cfgW ([pageA, pageB].getD i dummyPage)) 1 2
        initState).values = [pageSection cfgW pageA, pageSection cfgW pageB] ∧
    ((runNexts cfgW (fun i => mkBody cfgW ([pageA, pageB].getD i dummyPage)) 1 2
        initState).state?.map fun st => st.log.map FetchRec.cursor) =
      some [Json.null, Json.str "c1"] := by
  obtain ⟨stF, h1, h2, _⟩ := c1_page_sequence_yields_all cfgW "tok" [pageA, pageB] rfl
    (by simp)
    (by
      intro p hp
      simp at hp
      subst hp
      exact ⟨rfl, by simp [pageA]⟩)
    (by
      intro p hp
      rw [show ([pageA, pageB].getLast? = some pageB) from rfl] at hp
      cases Option.some.inj hp
      rfl)
  rw [show ([pageA, pageB].length = 2) from rfl] at h1
  rw [h1]
  exact ⟨rfl, by simpa [RunRes.state?] using h2⟩

/-- A last page with empty `edges` and `has_next_page = false`. -/
def pageEmptyLast : Page :=
  { count := .num 0, hasNext := false, endCursor := .null, edges := [] }

/-- A page with empty `edges` but `has_next_page = true`. -/
def pageEmptyNext : Page :=
  { count := .num 0, hasNext := true, endCursor := .str "x", edges := [] }

/-- Claim C2 counterexample: on a page with empty `edges` and
`has_next_page = false`, `__next__` yields the page (and finishes) instead of
raising StopIteration — the claim's "regardless of has_next_page ... not
yielded" is false. -/
theorem c2_counterexample :
    (nextStep cfgW (fun _ => mkBody cfgW pageEmptyLast) 1 initState).value?
      = some (pageSection cfgW pageEmptyLast) ∧
    (nextStep cfgW (fun _ => mkBody cfgW pageEmptyLast) 1 initState).state.finished
      = true ∧
    (nextStep cfgW (fun _ => mkBody cfgW pageEmptyLast) 1 initState).isStop = false :=
  ⟨rfl, rfl, rfl⟩

/-- Claim C2 (amended): a page with empty `edges` is dropped (StopIteration,
iterator finished) only when `has_next_page` is true; when `has_next_page` is
false the empty page is yielded to the caller and the iterator finishes. -/
theorem c2_empty_edges_amended (cfg : IterCfg) (csrf : String) (env : Env)
    (st : IterState) (p : Page) (fuel : Nat) (hc : cfg.csrf = some csrf)
    (hf : st.finished = false) (hd : st.genDead = false)
    (henv : env st.log.length = mkBody cfg p) (hedges : p.edges = []) :
    (p.hasNext = true →
      nextStep cfg env (fuel + 1) st =
        .stop { stAfterFetch cfg csrf st (countTotal p.count) with finished := true }) ∧
    (p.hasNext = false →
      nextStep cfg env (fuel + 1) st =
        .yielded { stAfterFetch cfg csrf st (countTotal p.count) with finished := true }
          (pageSection cfg p)) :=
  ⟨fun hn => nextStep_emptyEdges fuel hc hf hd henv hn hedges,
   fun hn => nextStep_terminal fuel hc hf hd henv hn⟩

/-- Witness for the amended C2 at a concrete empty page with
`has_next_page = true`. -/
theorem c2_witness :
    nextStep cfgW (fun _ => mkBody cfgW pageEmptyNext) 1 initState =
      .stop { stAfterFetch cfgW "tok" initState (countTotal pageEmptyNext.count) with
                finished := true } :=
  (c2_empty_edges_amended cfgW "tok" (fun _ => mkBody cfgW pageEmptyNext) initState
    pageEmptyNext 0 rfl rfl rfl rfl rfl).1 rfl

/-- Claim C3, evaluated at the failing input: the collection reports
`count = 400` (so `ceil(400/200) = 2` pages); after one page has been
yielded, `__length_hint__` still returns `2` and not `2 - 1`: `self._done`
is initialised to `0` but never incremented by `__next__` (only the unused
`_current_page` is), so the hint never decreases as pages are consumed. -/
theorem c3_length_hint_stuck :
    (runNexts cfgW envAB 1 1 initState).values = [pageSection cfgW pageA] ∧
    ((runNexts cfgW envAB 1 1 initState).state?.map fun st =>
        (lengthHint cfgW envAB 1 st).value?) = some (some 2) ∧
    ((runNexts cfgW envAB 1 1 initState).state?.map IterState.done) = some 0 ∧
    (2 : Int) ≠ 2 - 1 :=
  ⟨rfl, rfl, rfl, by decide⟩

/-- Claim C4 counterexample: the first fetch reads `count = 400` and stores a
total-pages estimate of `2`; the second fetch hits a body whose `count` field
is structurally absent, and the estimate is reset to `0` rather than left at
its prior value `2` (the fetch still does not fail — both pages are
yielded). -/
theorem c4_counterexample :
    ((runNexts cfgW envNC 1 1 initState).state?.map IterState.total) = some (some 2) ∧
    ((runNexts cfgW envNC 1 2 initState).state?.map IterState.total) = some (some 0) ∧
    (runNexts cfgW envNC 1 2 initState).values.length = 2 ∧
    (some (some (0 : Int)) : Option (Option Int)) ≠ some (some 2) :=
  ⟨rfl, rfl, rfl, by decide⟩

/-- Claim C4 (amended): the total-pages estimate is recomputed on every
fetch from that fetch's body: it becomes `ceil(count/200)` when a numeric
count is readable and `0` when the count path is structurally absent; either
way the fetch does not fail — the body is yielded whenever its `data`
envelope is present. -/
theorem c4_total_recomputed_amended (cfg : IterCfg) (csrf : String) (env : Env)
    (st : IterState) (data : Json) (hc : cfg.csrf = some csrf)
    (hdata : (env st.log.length).getItem "data" = .ok data) :
    pageLoaderAttempt cfg env st =
      .yielded (stAfterFetch cfg csrf st (totalFromBody cfg (env st.log.length))) data ∧
    (∀ n : Int,
      (env st.log.length).getPath ["data", cfg.sectionGeneric, cfg.sectionMedia, "count"]
        = .ok (.num n) →
      totalFromBody cfg (env st.log.length) = ceilIntDiv n 200) ∧
    (∀ e : PyErr,
      (env st.log.length).getPath ["data", cfg.sectionGeneric, cfg.sectionMedia, "count"]
        = .error e →
      totalFromBody cfg (env st.log.length) = 0) := by
  refine ⟨?_, ?_, ?_⟩
  · simp only [pageLoaderAttempt, hc, hdata]
    rfl
  · intro n hn
    simp [totalFromBody, hn, countTotal]
  · intro e he
    simp [totalFromBody, he]

/-- Witness for the amended C4: a body with `data` present but no `count`
yields with the estimate reset to `0`. -/
theorem c4_witness :
    pageLoaderAttempt cfgW (fun _ => bodyNC) initState =
      .yielded (stAfterFetch cfgW "tok" initState (totalFromBody cfgW bodyNC))
        (.obj [("user", .obj [("edge_owner_to_timeline_media",
          .obj [("page_info", .obj [("has_next_page", .bool true),
                                    ("end_cursor", .str "c2")]),
                ("edges", .arr [.str "e"])])])]) ∧
    totalFromBody cfgW bodyNC = 0 := by
  have h := c4_total_recomputed_amended cfgW "tok" (fun _ => bodyNC) initState
    (.obj [("user", .obj [("edge_owner_to_timeline_media",
      .obj [("page_info", .obj [("has_next_page", .bool true),
                                ("end_cursor", .str "c2")]),
            ("edges", .arr [.str "e"])])])]) rfl rfl
  exact ⟨h.1, h.2.2 .keyError rfl⟩

/-- Claim C5: a fetch attempt hitting the malformed / error shape (missing
`data` key) sleeps the fixed 10 time units and repeats the same logical
request — same cursor, same serialized parameters — indefinitely; the
failure never surfaces: after `m` malformed responses followed by a
well-formed page, the caller receives that page with no error, having
slept `10 * m`; against an environment that never recovers, every retry
budget is exhausted sleeping 10 per attempt. -/
theorem c5_retry_transparent (cfg : IterCfg) (csrf : String) (env : Env)
    (st : IterState) (p : Page) (m : Nat) (hc : cfg.csrf = some csrf)
    (hf : st.finished = false) (hd : st.genDead = false)
    (hbad : ∀ i, i < m → missingDataBody (env (st.log.length + i)))
    (hgood : env (st.log.length + m) = mkBody cfg p) (hterm : p.hasNext = false) :
    (∃ stF, pageLoaderNext cfg env (m + 1) st 0 = .ok stF (pageData cfg p) (10 * m) ∧
            stF.log.map FetchRec.cursor =
              st.log.map FetchRec.cursor ++ List.replicate (m + 1) st.cursor ∧
            stF.log.map FetchRec.jsonParams =
              st.log.map FetchRec.jsonParams ++
                List.replicate (m + 1) (jsonDumps (cfg.getparams st.cursor))) ∧
    (nextStep cfg env (m + 1) st).value? = some (pageSection cfg p) ∧
    (∀ envBad : Env, (∀ i, missingDataBody (envBad i)) →
      ∀ fuel, ∃ stB, pageLoaderNext cfg envBad fuel st 0 = .fuelOut stB (10 * fuel)) := by
  obtain ⟨stF, hrun, hcur, hpar, _, _⟩ :=
    pageLoaderNext_retries cfg csrf env p hc m st 0 hd hbad hgood
  rw [show (0 + 10 * m) = 10 * m by omega] at hrun
  refine ⟨⟨stF, hrun, hcur, hpar⟩, ?_, ?_⟩
  · simp [nextStep, hf, hrun, processData_page_terminal hterm, NextRes.value?]
  · intro envBad hb fuel
    obtain ⟨stB, hB⟩ := pageLoaderNext_allBad cfg csrf envBad hc hb fuel st 0 hd
    rw [show (0 + 10 * fuel) = 10 * fuel by omega] at hB
    exact ⟨stB, hB⟩

/-- Witness for C5: one malformed response then the terminal page — the
caller receives the page, the two requests both used the null cursor. -/
theorem c5_witness :
    (nextStep cfgW envRetryW 2 initState).value? = some (pageSection cfgW pageB) ∧
    (pageLoaderNext cfgW envRetryW 2 initState 0).state.log.map FetchRec.cursor =
      [Json.null, Json.null] := by
  have h := c5_retry_transparent cfgW "tok" envRetryW initState pageB 1 rfl rfl rfl
    (by
      intro i hi
      have h0 : i = 0 := by omega
      subst h0
      rfl)
    rfl rfl
  refine ⟨h.2.1, ?_⟩
  obtain ⟨stF, hrun, hcur, _⟩ := h.1
  rw [hrun]
  simpa [LoaderRes.state, initState] using hcur

/-- Claim C6: once the `finished` flag is true, neither `__next__` nor
`__length_hint__` performs another fetch — `__next__` raises StopIteration
immediately with the object state (request log included) untouched, and
`__length_hint__` answers from the already-known total with the state
untouched.  This holds in every reachable finished state, for every retry
budget. -/
theorem c6_finished_no_fetch (cfg : IterCfg) (env : Env) (s : IterState)
    (hr : Reach cfg env s) (hf : s.finished = true) :
    (∀ fuel, nextStep cfg env fuel s = .stop s) ∧
    (∀ fuel, ∃ t, s.total = some t ∧ lengthHint cfg env fuel s = .ok s (t - s.done)) := by
  have htot := reach_finished_total hr hf
  obtain ⟨t, ht⟩ := Option.isSome_iff_exists.mp htot
  exact ⟨fun fuel => nextStep_finished fuel hf,
         fun fuel => ⟨t, ht, lengthHint_known fuel ht⟩⟩

/-- Witness for C6 at the concrete reachable finished state `sFin`. -/
theorem c6_witness :
    nextStep cfgW envTerm 5 sFin = .stop sFin ∧
    lengthHint cfgW envTerm 5 sFin = .ok sFin 2 := by
  have h := c6_finished_no_fetch cfgW envTerm sFin (Reach.next 1 Reach.init) (by decide)
  obtain ⟨t, ht, hh⟩ := h.2 5
  have ht2 : t = 2 := by
    rw [show sFin.total = some 2 from by decide] at ht
    exact (Option.some.inj ht).symm
  subst ht2
  have hd : (2 : Int) - (sFin.done : Int) = 2 := by
    rw [show sFin.done = 0 from by decide]
    simp
  rw [hd] at hh
  exact ⟨h.1 5, hh⟩

/-- Claim C7: every request issued by the page loader, in any reachable
state, wrote a signature header equal to the lowercase hex MD5 digest of
the colon-joined rotating token, CSRF token and compact JSON serialization
of the query parameters built from the request's cursor. -/
theorem c7_signature_header (cfg : IterCfg) (env : Env) (csrf : String)
    (s : IterState) (hc : cfg.csrf = some csrf) (hr : Reach cfg env s) :
    ∀ r ∈ s.log,
      r.jsonParams = jsonDumps (cfg.getparams r.cursor) ∧
      r.gis = md5hex (utf8Bytes (cfg.rhx ++ ":" ++ csrf ++ ":" ++ r.jsonParams)) :=
  fun r hmem => reach_log_signed hc hr r hmem

/-- Witness for C7: the single request of the reachable state `sFin` carries
the digest of `"abc:tok:<params>"`, which evaluates to the independently
computed MD5 value. -/
theorem c7_witness :
    (⟨Json.null, "\x7b\"id\":\"42\",\"first\":200,\"after\":null\x7d",
      "7fc51f6d6eca878f55ae98c90010bdd3"⟩ : FetchRec) ∈ sFin.log ∧
    md5hex (utf8Bytes
        ("abc" ++ ":" ++ "tok" ++ ":" ++ "\x7b\"id\":\"42\",\"first\":200,\"after\":null\x7d")) =
      "7fc51f6d6eca878f55ae98c90010bdd3" := by
  have hmem : (⟨Json.null, "\x7b\"id\":\"42\",\"first\":200,\"after\":null\x7d",
      "7fc51f6d6eca878f55ae98c90010bdd3"⟩ : FetchRec) ∈ sFin.log := by
    rw [show sFin.log = [⟨Json.null, "\x7b\"id\":\"42\",\"first\":200,\"after\":null\x7d",
      "7fc51f6d6eca878f55ae98c90010bdd3"⟩] from rfl]
    exact List.mem_singleton.mpr rfl
  have h := c7_signature_header cfgW envTerm "tok" sFin rfl (Reach.next 1 Reach.init)
    _ hmem
  exact ⟨hmem, h.2.symm⟩

/-- Claim C8 counterexample: a private account that is followed by the
viewer resolves successfully with an empty cookie jar — resolution of a
private account does not require the `ds_user_id` cookie to match, so
"succeeds only if the identity cookie equals the owner id" is false. -/
theorem c8_counterexample :
    from_username "alice" (.ok (mkProfile true true (.str "7") (.str "r"))) [] =
      .ok (.str "7", .str "r") := rfl

/-- Claim C8 (amended): resolution succeeds for a public account regardless
of cookies; it also succeeds for a private account followed by the viewer,
regardless of cookies; for a private account not followed by the viewer it
succeeds exactly when the first `ds_user_id` cookie equals (string
comparison) the owner id, and otherwise fails with a RuntimeError naming the
handle — an error distinct from the not-found ValueError. -/
theorem c8_privacy_amended (u : String) (priv fol : Bool) (idv rhxv : Json)
    (cookies : List (String × String)) :
    (priv = false →
      from_username u (.ok (mkProfile priv fol idv rhxv)) cookies = .ok (idv, rhxv)) ∧
    (priv = true → fol = true →
      from_username u (.ok (mkProfile priv fol idv rhxv)) cookies = .ok (idv, rhxv)) ∧
    (priv = true → fol = false → pyNeq (dsUserId cookies) idv = false →
      from_username u (.ok (mkProfile priv fol idv rhxv)) cookies = .ok (idv, rhxv)) ∧
    (priv = true → fol = false → pyNeq (dsUserId cookies) idv = true →
      from_username u (.ok (mkProfile priv fol idv rhxv)) cookies =
        .error (.runtimeError ("user '" ++ u ++ "' is private")) ∧
      (.runtimeError ("user '" ++ u ++ "' is private") : PyErr) ≠
        .valueError ("account not found: " ++ u)) := by
  refine ⟨?_, ?_, ?_, ?_⟩
  · intro hp
    subst hp
    simp [from_username, userData, getSharedDataExc, mkProfile, Json.getItem,
          Json.getIdx, List.lookup, Json.truthy, bind, Except.bind, pure, Except.pure]
  · intro hp hfo
    subst hp
    subst hfo
    simp [from_username, userData, getSharedDataExc, mkProfile, Json.getItem,
          Json.getIdx, List.lookup, Json.truthy, bind, Except.bind, pure, Except.pure]
  · intro hp hfo hne
    subst hp
    subst hfo
    simp [from_username, userData, getSharedDataExc, mkProfile, Json.getItem,
          Json.getIdx, List.lookup, Json.truthy, hne, bind, Except.bind, pure,
          Except.pure]
  · intro hp hfo hne
    subst hp
    subst hfo
    refine ⟨?_, fun h => PyErr.noConfusion h⟩
    simp [from_username, userData, getSharedDataExc, mkProfile, Json.getItem,
          Json.getIdx, List.lookup, Json.truthy, hne, bind, Except.bind, pure,
          Except.pure, throw, throwThe, MonadExceptOf.throw]

/-- Witness for the amended C8: a private, unfollowed account with a
mismatching `ds_user_id` cookie fails with the access-denied RuntimeError. -/
theorem c8_witness :
    from_username "alice" (.ok (mkProfile true false (.str "7") (.str "r")))
        [("ds_user_id", "99")] =
      .error (.runtimeError "user 'alice' is private") :=
  ((c8_privacy_amended "alice" true false (.str "7") (.str "r")
    [("ds_user_id", "99")]).2.2.2 rfl rfl rfl).1

/-- Claim C9 counterexample: a payload that parses but has no `ProfilePage`
entry makes `from_username` raise a bare KeyError — an unrelated exception
type — instead of the target-not-found ValueError carrying the handle. -/
theorem c9_counterexample :
    from_username "bob" (.ok (.obj [("entry_data", .obj []), ("rhx_gis", .str "r")])) [] =
      .error .keyError ∧
    (.keyError : PyErr) ≠ .valueError ("account not found: " ++ "bob") :=
  ⟨rfl, fun h => PyErr.noConfusion h⟩

/-- Claim C9 (amended): an absent or unparseable resolution payload fails
with `ValueError ("account not found: <handle>")`; but a payload that parses
and merely lacks the `ProfilePage` entry raises a bare KeyError instead. -/
theorem c9_resolution_errors_amended (u : String) (cookies : List (String × String)) :
    from_username u .absent cookies = .error (.valueError ("account not found: " ++ u)) ∧
    from_username u .malformed cookies = .error (.valueError ("account not found: " ++ u)) ∧
    (∀ ed : List (String × Json), ed.lookup "ProfilePage" = none →
      from_username u (.ok (.obj [("entry_data", .obj ed)])) cookies =
        .error .keyError) := by
  refine ⟨rfl, rfl, ?_⟩
  intro ed hed
  simp [from_username, userData, getSharedDataExc, Json.getItem, List.lookup, hed,
        bind, Except.bind]

/-- Witness for the amended C9 at a concrete handle and payload. -/
theorem c9_witness :
    from_username "carol" .absent [] = .error (.valueError "account not found: carol") ∧
    from_username "carol" (.ok (.obj [("entry_data", .obj [("other", .null)])])) [] =
      .error .keyError := by
  have h := c9_resolution_errors_amended "carol" []
  exact ⟨h.1, h.2.2 [("other", .null)] rfl⟩

/-- Claim C10 counterexample: querying `__length_hint__` before the first
`__next__` consumes one generator production (one request, visible in the
log) but does not advance the cursor; the next `__next__` re-requests the
same null cursor, and against a cursor-deterministic server the caller still
receives page A first and then page B — the collection's first page is not
skipped.  The request log `null, null, "c1"` shows the duplicate request. -/
theorem c10_counterexample :
    (lengthHint cfgW envHintW 1 initState).value? = some 2 ∧
    (lengthHint cfgW envHintW 1 initState).state.cursor = .null ∧
    (lengthHint cfgW envHintW 1 initState).state.log.length = 1 ∧
    (runNexts cfgW envHintW 1 2 ((lengthHint cfgW envHintW 1 initState).state)).values =
      [pageSection cfgW pageA, pageSection cfgW pageB] ∧
    ((runNexts cfgW envHintW 1 2 ((lengthHint cfgW envHintW 1 initState).state)).state?.map
        fun st => st.log.map FetchRec.cursor) =
      some [Json.null, Json.null, Json.str "c1"] :=
  ⟨by decide, rfl, by decide, rfl, rfl⟩

/-- Claim C10 (amended): when the total is unknown, `__length_hint__`
consumes one production of the shared generator (one extra request) and
discards its payload after reading the count; the cursor is not advanced, so
the next `__next__` issues a request with the same cursor — with a
cursor-deterministic server no page is lost, the cost is one duplicate
request. -/
theorem c10_hint_prefetch_amended (cfg : IterCfg) (csrf : String) (env : Env)
    (st : IterState) (p : Page) (fuel : Nat) (hc : cfg.csrf = some csrf)
    (ht : st.total = none) (hd : st.genDead = false)
    (henv : env st.log.length = mkBody cfg p) :
    lengthHint cfg env (fuel + 1) st =
      .ok (stAfterFetch cfg csrf st (countTotal p.count)) (countTotal p.count - st.done) ∧
    (stAfterFetch cfg csrf st (countTotal p.count)).cursor = st.cursor ∧
    (stAfterFetch cfg csrf st (countTotal p.count)).log.length = st.log.length + 1 :=
  ⟨lengthHint_fetch fuel hc ht hd henv, rfl, by simp [stAfterFetch]⟩

/-- Witness for the amended C10 at the concrete first page. -/
theorem c10_witness :
    (lengthHint cfgW envHintW 1 initState).state.cursor = Json.null ∧
    (lengthHint cfgW envHintW 1 initState).state.log.length = 1 := by
  have h := c10_hint_prefetch_amended cfgW "tok" envHintW initState pageA 0 rfl rfl rfl rfl
  rw [h.1]
  exact ⟨h.2.1, h.2.2⟩
